import Mathlib

/-!
Shallow embedding of the asset-comparison analytics of `data_processor.py`
(class `DataProcessor`): `calculate_metrics`, `compare_assets` and
`compare_stock_to_index`, together with the pandas/numpy numeric semantics
they rely on (float64 arithmetic with inf and NaN, `pct_change`, `corr`,
`cov`, `var`, `std` with `ddof = 1` and NaN skipping, and Python `round`
with banker's rounding).  Prices are modelled as exact rationals; a float
value is either a rational, one of the two infinities, or NaN.  Pearson
correlation and standard deviations involve square roots, so they are kept
in an exact symbolic form (a rational scaled by the square root of a
rational) from which the 2-decimal rounding of the source is computed
exactly.
-/

namespace MarketAnalysis

/-- Float values as produced by numpy float64 arithmetic on exact inputs:
a rational number, positive or negative infinity, or NaN. -/
inductive FVal where
  | nan : FVal
  | inf : FVal
  | ninf : FVal
  | q : ℚ → FVal
deriving DecidableEq

/-- Addition on float values (IEEE semantics on the special values). -/
def FVal.add : FVal → FVal → FVal
  | .nan, _ => .nan
  | _, .nan => .nan
  | .inf, .ninf => .nan
  | .ninf, .inf => .nan
  | .inf, _ => .inf
  | _, .inf => .inf
  | .ninf, _ => .ninf
  | _, .ninf => .ninf
  | .q a, .q b => .q (a + b)

/-- Subtraction on float values. -/
def FVal.sub : FVal → FVal → FVal
  | .nan, _ => .nan
  | _, .nan => .nan
  | .inf, .inf => .nan
  | .ninf, .ninf => .nan
  | .inf, _ => .inf
  | .ninf, _ => .ninf
  | _, .inf => .ninf
  | _, .ninf => .inf
  | .q a, .q b => .q (a - b)

/-- Multiplication on float values; infinity times zero is NaN. -/
def FVal.mul : FVal → FVal → FVal
  | .nan, _ => .nan
  | _, .nan => .nan
  | .inf, .inf => .inf
  | .inf, .ninf => .ninf
  | .ninf, .inf => .ninf
  | .ninf, .ninf => .inf
  | .inf, .q b => if b = 0 then .nan else if 0 < b then .inf else .ninf
  | .ninf, .q b => if b = 0 then .nan else if 0 < b then .ninf else .inf
  | .q a, .inf => if a = 0 then .nan else if 0 < a then .inf else .ninf
  | .q a, .ninf => if a = 0 then .nan else if 0 < a then .ninf else .inf
  | .q a, .q b => .q (a * b)

/-- Division on float values: numpy float64 division by zero yields
inf, -inf or NaN (with a runtime warning) instead of raising, and a
finite value divided by infinity is zero. -/
def FVal.div : FVal → FVal → FVal
  | .nan, _ => .nan
  | _, .nan => .nan
  | .inf, .inf => .nan
  | .inf, .ninf => .nan
  | .ninf, .inf => .nan
  | .ninf, .ninf => .nan
  | .inf, .q b => if 0 ≤ b then .inf else .ninf
  | .ninf, .q b => if 0 ≤ b then .ninf else .inf
  | .q _, .inf => .q 0
  | .q _, .ninf => .q 0
  | .q a, .q b =>
    if b = 0 then (if a = 0 then .nan else if 0 < a then .inf else .ninf)
    else .q (a / b)

/-- Rounding of a rational to the nearest integer, ties to even
(the rounding used by Python round). -/
def rheInt (x : ℚ) : ℤ :=
  let n := ⌊x⌋
  if x - n < 1/2 then n
  else if 1/2 < x - n then n + 1
  else if n % 2 = 0 then n else n + 1

/-- Python round(x, 2) on an exact rational. -/
def pyRound2 (x : ℚ) : ℚ := (rheInt (100 * x) : ℚ) / 100

/-- Python round(x, 2) on a float value: NaN and the infinities are
returned unchanged. -/
def FVal.pyRound2 : FVal → FVal
  | .q v => .q (MarketAnalysis.pyRound2 v)
  | v => v

/-- Rounding of the square root of a nonnegative rational to the nearest
integer, ties to even, computed exactly by comparing squares. -/
def rheSqrt (r : ℚ) : ℤ :=
  let n : ℤ := (Nat.sqrt (Int.toNat ⌊r⌋) : ℤ)
  if (n : ℚ) ^ 2 + n + 1/4 < r then n + 1
  else if r < (n : ℚ) ^ 2 + n + 1/4 then n
  else if n % 2 = 0 then n else n + 1

/-- Truth of the predicate used when a float value is compared against
zero with Python `!=`: NaN != 0 is True. -/
def FVal.neZero : FVal → Bool
  | .q v => decide (v ≠ 0)
  | _ => true

/-- Mean of a list of rationals (sum divided by length). -/
def meanQ (l : List ℚ) : ℚ := l.sum / (l.length : ℚ)

/-- Sum of pairwise products of deviations from the means, the common
kernel of sample covariance and variance. -/
def demeanProd (xs ys : List ℚ) : ℚ :=
  ((xs.zip ys).map (fun p => (p.1 - meanQ xs) * (p.2 - meanQ ys))).sum

/-- Sum of squared deviations from the mean. -/
def ssq (xs : List ℚ) : ℚ := demeanProd xs xs

/-- Test for NaN. -/
def FVal.isNaN : FVal → Bool
  | .nan => true
  | _ => false

/-- Test for an infinity. -/
def FVal.isInf : FVal → Bool
  | .inf => true
  | .ninf => true
  | _ => false

/-- Rational content of a finite float value (0 on the special values;
only applied after filtering them out). -/
def FVal.toQ : FVal → ℚ
  | .q v => v
  | _ => 0

/-- Exact form of a Pearson correlation coefficient as computed by
pandas Series.corr: either NaN, or the value c divided by the square
root of v (with v positive), kept symbolically because the square root
is irrational in general. -/
inductive CorrV where
  | nan : CorrV
  | rep : ℚ → ℚ → CorrV
deriving DecidableEq

/-- Pearson correlation of two positionally aligned float series, after
the index alignment pandas Series.corr performs: pairs in which either
entry is NaN are dropped; any remaining infinity poisons the result to
NaN; fewer than two surviving pairs or a zero variance on either side
give NaN; otherwise the exact value is kept as rep c v, denoting
c / sqrt v with c the demeaned cross sum and v the product of the two
demeaned square sums (the ddof normalisations cancel). -/
def seriesCorr (xs ys : List FVal) : CorrV :=
  let ps := (xs.zip ys).filter (fun p => !(p.1.isNaN || p.2.isNaN))
  if ps.any (fun p => p.1.isInf || p.2.isInf) then .nan
  else if ps.length < 2 then .nan
  else
    let as := ps.map (fun p => p.1.toQ)
    let bs := ps.map (fun p => p.2.toQ)
    if ssq as * ssq bs = 0 then .nan
    else .rep (demeanProd as bs) (ssq as * ssq bs)

/-- Rounding of a correlation to 2 decimals as Python round does at the
output boundary: NaN stays NaN, and the exact irrational value c / sqrt v
is rounded by comparing squares. -/
def CorrV.rounded : CorrV → FVal
  | .nan => .nan
  | .rep c v =>
    if c = 0 then .q 0
    else if 0 < c then .q ((rheSqrt (10000 * c ^ 2 / v) : ℚ) / 100)
    else .q (-((rheSqrt (10000 * c ^ 2 / v) : ℚ) / 100))

/-- Sample covariance of two positionally aligned float series as
computed by pandas Series.cov (ddof = 1, NaN pairs dropped, NaN when
fewer than two pairs survive, NaN when an infinity is present). -/
def seriesCov (xs ys : List FVal) : FVal :=
  let ps := (xs.zip ys).filter (fun p => !(p.1.isNaN || p.2.isNaN))
  if ps.any (fun p => p.1.isInf || p.2.isInf) then .nan
  else if ps.length < 2 then .nan
  else .q (demeanProd (ps.map (fun p => p.1.toQ)) (ps.map (fun p => p.2.toQ)) /
            ((ps.length : ℚ) - 1))

/-- Sample variance of a float series as computed by pandas Series.var
(ddof = 1, NaN entries skipped, NaN when fewer than two values remain,
NaN when an infinity is present). -/
def seriesVar (xs : List FVal) : FVal :=
  let vs := xs.filter (fun x => !x.isNaN)
  if vs.any (fun x => x.isInf) then .nan
  else if vs.length < 2 then .nan
  else .q (ssq (vs.map FVal.toQ) / ((vs.length : ℚ) - 1))

/-- Exact form of a standard deviation: NaN, or the square root of a
nonnegative rational, kept symbolically. -/
inductive StdV where
  | nan : StdV
  | sqrtQ : ℚ → StdV
deriving DecidableEq

/-- Sample standard deviation of a float series as computed by pandas
Series.std: the square root of the sample variance. -/
def seriesStd (xs : List FVal) : StdV :=
  match seriesVar xs with
  | .q v => .sqrtQ v
  | _ => .nan

/-- Embedding of the volatility-ratio computation of compare_assets:
the source tests volatility2 != 0 first (for a NaN standard deviation
Python evaluates NaN != 0 to True, so the quotient is taken and is NaN),
yields 0 when the second deviation is zero, and otherwise the quotient
sqrt v1 / sqrt v2 = sqrt (v1 / v2) rounded to 2 decimals at the output
boundary. -/
def stdRatioRounded (s1 s2 : StdV) : FVal :=
  match s1, s2 with
  | _, .nan => .nan
  | .nan, .sqrtQ v2 => if v2 = 0 then .q 0 else .nan
  | .sqrtQ v1, .sqrtQ v2 =>
    if v2 = 0 then .q 0
    else .q ((rheSqrt (10000 * v1 / v2) : ℚ) / 100)

/-- Date values as they occur in the dataframes of this repository: a
calendar-date string (the format both fetchers produce), or a raw
datetime value (year, month, day) as produced by mock-data paths, which
the dt.strftime normalisation in compare_assets turns into a string. -/
inductive DateVal where
  | s : String → DateVal
  | t : Nat → Nat → Nat → DateVal
deriving DecidableEq

/-- Zero padding of a number to two digits. -/
def pad2 (n : Nat) : String := if n < 10 then "0" ++ toString n else toString n

/-- Zero padding of a number to four digits. -/
def pad4 (n : Nat) : String :=
  if n < 10 then "000" ++ toString n
  else if n < 100 then "00" ++ toString n
  else if n < 1000 then "0" ++ toString n
  else toString n

/-- Embedding of strftime applied to a datetime date: the
calendar-date string it formats to.  A date already held as a string is
returned unchanged (the source only applies strftime to datetime
columns). -/
def DateVal.normalize : DateVal → DateVal
  | .s v => .s v
  | .t y m d => .s (pad4 y ++ "-" ++ pad2 m ++ "-" ++ pad2 d)

/-- One row of a historical-price dataframe: a date plus OHLCV fields
(the open column is named openv because open is reserved in Lean). -/
structure PriceBar where
  date : DateVal
  openv : ℚ
  high : ℚ
  low : ℚ
  close : ℚ
  volume : ℚ
deriving DecidableEq

/-- Truth of the isinstance(df.date.iloc[0], str) test of
compare_assets: whether the first date of the frame is held as a
string.  False on an empty frame (the source only reaches the test on
nonempty frames). -/
def headDateIsStr (df : List PriceBar) : Bool :=
  match df.head? with
  | some b => match b.date with | .s _ => true | .t _ _ _ => false
  | none => false

/-- Embedding of the date-normalisation step of compare_assets: if the
first date is not a string, the whole date column is rewritten with
strftime. -/
def normalizeDates (df : List PriceBar) : List PriceBar :=
  if headDateIsStr df then df
  else df.map (fun b => { b with date := b.date.normalize })

/-- Embedding of pd.merge(df1, df2, on date, how inner) for frames
whose date columns share one representation (always the case after
normalizeDates): for each left row, in left order, the matching right
rows in right order.  With duplicate-free date columns each left row
matches at most once, which is the documented preserve-left-key-order
behaviour of an inner merge.  Merging a datetime64 date column against
an object (string) date column instead raises ValueError in pandas;
that error path is modelled explicitly by dateDtypeMismatch and
compare_stock_to_index_checked. -/
def mergeOn (a b : List PriceBar) : List (PriceBar × PriceBar) :=
  a.flatMap (fun ra => (b.filter (fun rb => rb.date == ra.date)).map (fun rb => (ra, rb)))

/-- Embedding of Series.pct_change().dropna() on a close column with
the leading NaN dropped: the consecutive ratios minus one, under numpy
float semantics (a zero previous close gives an infinity or NaN, which
dropna would remove and which every downstream consumer skips identically,
so the positional indexing of the remaining pandas entries is preserved
by keeping them in place). -/
def pctChange (cs : List ℚ) : List FVal :=
  (cs.zip cs.tail).map (fun p => FVal.sub (FVal.div (.q p.2) (.q p.1)) (.q 1))

/-- Result record of DataProcessor.calculate_metrics. -/
structure Metrics where
  openv : ℚ
  high : ℚ
  low : ℚ
  close : ℚ
  volume : ℚ
  previous_close : ℚ
  fifty_day_avg : ℚ
  two_hundred_day_avg : ℚ
  year_high : ℚ
  year_low : ℚ
deriving DecidableEq

/-- All-zero metrics sentinel returned for an empty frame. -/
def metricsZero : Metrics := ⟨0, 0, 0, 0, 0, 0, 0, 0, 0, 0⟩

/-- Last min(n, length) rows of a frame, the embedding of df.tail. -/
def tailRows {α : Type} (df : List α) (n : Nat) : List α := df.drop (df.length - n)

/-- Maximum of a list of rationals (0 on an empty list; the source only
takes maxima of nonempty columns). -/
def maxQ : List ℚ → ℚ
  | [] => 0
  | x :: xs => xs.foldl max x

/-- Minimum of a list of rationals (0 on an empty list). -/
def minQ : List ℚ → ℚ
  | [] => 0
  | x :: xs => xs.foldl min x

/-- Placeholder bar used to express total indexing where the source
index is known to be in range. -/
def dummyBar : PriceBar := ⟨.s "", 0, 0, 0, 0, 0⟩

/-- Unique row of a frame carrying a given date (the head of the
date-filtered frame), used to describe an inner merge over
duplicate-free date columns. -/
def lookupBar (b : List PriceBar) (d : DateVal) : PriceBar :=
  (b.filter (fun x => x.date == d)).headD dummyBar

/-- Embedding of DataProcessor.calculate_metrics: the all-zero sentinel
on an empty frame, otherwise the last bar's OHLCV, the second-to-last
close (0 with fewer than two bars), trailing means of the close column
over min(50, N) and min(200, N) bars, and the extremes of high and low
over the trailing min(252, N) bars. -/
def calculate_metrics (df : List PriceBar) : Metrics :=
  match df.getLast? with
  | none => metricsZero
  | some latest =>
    { openv := latest.openv
      high := latest.high
      low := latest.low
      close := latest.close
      volume := latest.volume
      previous_close := if 1 < df.length then (df.getD (df.length - 2) dummyBar).close else 0
      fifty_day_avg := meanQ ((tailRows df (min 50 df.length)).map PriceBar.close)
      two_hundred_day_avg := meanQ ((tailRows df (min 200 df.length)).map PriceBar.close)
      year_high := maxQ ((tailRows df (min 252 df.length)).map PriceBar.high)
      year_low := minQ ((tailRows df (min 252 df.length)).map PriceBar.low) }

/-- Result record of DataProcessor.compare_assets. -/
structure PairwiseOut where
  correlation : FVal
  relative_performance : FVal
  volatility_ratio : FVal
deriving DecidableEq

/-- Zero sentinel of compare_assets. -/
def pairwiseZero : PairwiseOut := ⟨.q 0, .q 0, .q 0⟩

/-- Body of DataProcessor.compare_assets from the inner merge onwards,
applied to the two already-normalised copies: zero sentinel under two
aligned rows; correlation of the daily pct-change returns; relative
performance from the first and last aligned close ratio (numpy
division, so a zero close produces inf or NaN rather than the dead
except branch); volatility ratio of the return standard deviations; all
three rounded to 2 decimals. -/
def compareAligned (df1c df2c : List PriceBar) : PairwiseOut :=
  let common := mergeOn df1c df2c
  if common.length < 2 then pairwiseZero
  else
    let closesx := common.map (fun p => p.1.close)
    let closesy := common.map (fun p => p.2.close)
    let returns1 := pctChange closesx
    let returns2 := pctChange closesy
    let firstRatio := FVal.div (.q (closesx.headD 0)) (.q (closesy.headD 0))
    let lastRatio := FVal.div (.q (closesx.getLastD 0)) (.q (closesy.getLastD 0))
    let relp := FVal.sub (FVal.div lastRatio firstRatio) (.q 1)
    { correlation := (seriesCorr returns1 returns2).rounded
      relative_performance := (FVal.mul relp (.q 100)).pyRound2
      volatility_ratio := stdRatioRounded (seriesStd returns1) (seriesStd returns2) }

/-- Embedding of DataProcessor.compare_assets as a function of the two
argument frames: zero sentinel on an empty input, then the date columns
normalised to strings on copies, then the aligned comparison (see
compareAssetsProg for the store-level embedding of its copy-then-mutate
statements). -/
def compare_assets (df1 df2 : List PriceBar) : PairwiseOut :=
  if df1.isEmpty || df2.isEmpty then pairwiseZero
  else compareAligned (normalizeDates df1) (normalizeDates df2)

/-- Result record of DataProcessor.compare_stock_to_index.  The note
key is present only on the full computation path, so it is an Option:
none models the three-key sentinel dictionaries. -/
structure IndexOut where
  correlation : FVal
  alpha : FVal
  beta : FVal
  note : Option String
deriving DecidableEq

/-- Zero sentinel of compare_stock_to_index (three keys, no note). -/
def indexZero : IndexOut := ⟨.q 0, .q 0, .q 0, none⟩

/-- Embedding of DataProcessor.compare_stock_to_index: zero sentinel on
an empty input; inner merge directly on the raw date column (no
normalisation step, unlike compare_assets); zero sentinel under two
aligned rows; crypto-index guard on the mean aligned index close
exceeding 1,000,000 which replaces beta by the fixed 1.5; otherwise
beta is covariance over variance of the returns, 0 when the variance
compares equal to 0 (a NaN variance passes the != 0 test and propagates);
alpha from total-period returns; correlation as in compare_assets; a
note string flags the crypto-index case.  This function is the body on
the domain where the raw merge succeeds (both date columns in the same
representation); compare_stock_to_index_checked adds the ValueError
path of a representation-mismatched merge. -/
def compare_stock_to_index (stockDf indexDf : List PriceBar) : IndexOut :=
  if stockDf.isEmpty || indexDf.isEmpty then indexZero
  else
    let common := mergeOn stockDf indexDf
    if common.length < 2 then indexZero
    else
      let closesx := common.map (fun p => p.1.close)
      let closesy := common.map (fun p => p.2.close)
      let isCryptoIndex := decide (1000000 < meanQ closesy)
      let stockReturns := pctChange closesx
      let indexReturns := pctChange closesy
      let covariance := seriesCov stockReturns indexReturns
      let variance := seriesVar indexReturns
      let beta : FVal :=
        if isCryptoIndex then .q (3/2)
        else if variance.neZero then FVal.div covariance variance else .q 0
      let stockTotal :=
        FVal.sub (FVal.div (.q (closesx.getLastD 0)) (.q (closesx.headD 0))) (.q 1)
      let indexTotal :=
        FVal.sub (FVal.div (.q (closesy.getLastD 0)) (.q (closesy.headD 0))) (.q 1)
      let alpha := FVal.sub stockTotal (FVal.mul beta indexTotal)
      { correlation := (seriesCorr stockReturns indexReturns).rounded
        alpha := (FVal.mul alpha (.q 100)).pyRound2
        beta := beta.pyRound2
        note := some (if isCryptoIndex then "Values normalized for scale" else "") }

/-- Dtype of a date value: true for a datetime value (a datetime64
column), false for a calendar-date string (an object column). -/
def DateVal.isTs : DateVal → Bool
  | .t _ _ _ => true
  | .s _ => false

/-- Truth of the condition under which pd.merge on the raw date columns
raises: the two nonempty frames carry different date-column dtypes,
datetime64 on one side and object strings on the other (read off the
head row of each homogeneous column). -/
def dateDtypeMismatch (a b : List PriceBar) : Bool :=
  match a.head?, b.head? with
  | some ra, some rb => ra.date.isTs != rb.date.isTs
  | _, _ => false

/-- Message of the ValueError pandas raises when merging a datetime64
date column against an object date column. -/
def valueErrorMsg : String :=
  "ValueError: merging on datetime64 and object columns"

/-- Embedding of a call to DataProcessor.compare_stock_to_index
including the error path of its un-normalised merge: after the
emptiness check, pd.merge on date raises ValueError when one frame
carries datetime64 dates and the other strings; only
same-representation frames reach the comparison body. -/
def compare_stock_to_index_checked (stockDf indexDf : List PriceBar) :
    Except String IndexOut :=
  if stockDf.isEmpty || indexDf.isEmpty then .ok indexZero
  else if dateDtypeMismatch stockDf indexDf then .error valueErrorMsg
  else .ok (compare_stock_to_index stockDf indexDf)

/-- Beta as the specification describes it, for the refinement claim
about the crypto-index guard: the fixed 1.5 when the mean aligned index
close exceeds 1,000,000, otherwise covariance over variance of the
aligned returns, and 0 when the variance is zero.  Stated over the same
statistical primitives as the code embedding so the two can be
compared. -/
def betaSpec (df1 df2 : List PriceBar) : FVal :=
  let common := mergeOn df1 df2
  let closesy := common.map (fun p => p.2.close)
  if 1000000 < meanQ closesy then .q (3/2)
  else
    let rA := pctChange (common.map (fun p => p.1.close))
    let rI := pctChange closesy
    if seriesVar rI = .q 0 then .q 0 else FVal.div (seriesCov rA rI) (seriesVar rI)

/-- Helper constructing a string-dated bar whose four price fields all
equal the given close. -/
def sbar (d : String) (c : ℚ) : PriceBar := ⟨.s d, c, c, c, c, 0⟩

/-- Helper constructing a datetime-dated bar whose four price fields
all equal the given close. -/
def tbar (y m d : Nat) (c : ℚ) : PriceBar := ⟨.t y m d, c, c, c, c, 0⟩

/-- Two-bar series A of the concrete scenario in the specification:
closes 100 then 110. -/
def dfScenA : List PriceBar := [sbar "2024-01-01" 100, sbar "2024-01-02" 110]

/-- Two-bar series B of the concrete scenario: closes 50 then 45. -/
def dfScenB : List PriceBar := [sbar "2024-01-01" 50, sbar "2024-01-02" 45]

/-- Four-bar series with constant close 100: its daily returns are all
zero, a zero-variance return sequence. -/
def dfConstA : List PriceBar :=
  [sbar "2024-01-01" 100, sbar "2024-01-02" 100, sbar "2024-01-03" 100,
   sbar "2024-01-04" 100]

/-- Four-bar series with varying closes on the same dates as
dfConstA. -/
def dfVarB : List PriceBar :=
  [sbar "2024-01-01" 50, sbar "2024-01-02" 55, sbar "2024-01-03" 60,
   sbar "2024-01-04" 50]

/-- Series whose first close is zero, to exercise the zero-denominator
path of the relative-performance ratio. -/
def dfZeroB : List PriceBar := [sbar "2024-01-01" 0, sbar "2024-01-02" 45]

/-- Two-bar series carrying datetime dates, as the mock-data path
produces. -/
def dfTdates : List PriceBar := [tbar 2021 1 1 100, tbar 2021 1 2 110]

/-- Two-bar series on the same two calendar days as dfTdates but with
string dates, as both HTTP fetchers produce. -/
def dfSdates : List PriceBar := [sbar "2021-01-01" 50, sbar "2021-01-02" 45]

/-- Stock series for the crypto-index-guard scenario. -/
def dfStock : List PriceBar := [sbar "2024-01-01" 100, sbar "2024-01-02" 110]

/-- Index series whose closes average above one million, firing the
crypto-index guard. -/
def dfCryptoIdx : List PriceBar :=
  [sbar "2024-01-01" 2000000, sbar "2024-01-02" 2200000]

/-- Single-bar series whose date overlaps neither scenario series. -/
def dfNoOverlap : List PriceBar := [sbar "2023-06-01" 10]

/-- Mutable store of dataframes addressed by allocation index, used to
state the frame condition of compare_assets, whose source copies its
arguments and rewrites the date column of the copies in place. -/
structure Store where
  frames : List (List PriceBar)

/-- Read of the frame at an address (the empty frame out of range). -/
def Store.read (st : Store) (a : Nat) : List PriceBar := st.frames.getD a []

/-- Allocation of a fresh frame, the embedding of df.copy(): the copy
is appended to the store and its address returned. -/
def Store.alloc (st : Store) (df : List PriceBar) : Store × Nat :=
  (⟨st.frames ++ [df]⟩, st.frames.length)

/-- In-place overwrite of the frame at an address, the embedding of the
date-column assignment on a copy. -/
def Store.writeFrame (st : Store) (a : Nat) (df : List PriceBar) : Store :=
  ⟨st.frames.set a df⟩

/-- Store-level embedding of DataProcessor.compare_assets following its
statement order: read both argument frames, return the sentinel when one
is empty, allocate df1_copy and df2_copy, rewrite the date column in
place on each copy whose first date is not a string, and compute the
comparison from the copies.  The argument frames themselves are never
written. -/
def compareAssetsProg (st : Store) (a1 a2 : Nat) : PairwiseOut × Store :=
  let df1 := st.read a1
  let df2 := st.read a2
  if df1.isEmpty || df2.isEmpty then (pairwiseZero, st)
  else
    let al1 := st.alloc df1
    let al2 := al1.1.alloc df2
    let c1 := al1.2
    let c2 := al2.2
    let st2 := al2.1
    let st3 :=
      if headDateIsStr (st2.read c1) then st2
      else st2.writeFrame c1
        ((st2.read c1).map (fun b => { b with date := b.date.normalize }))
    let st4 :=
      if headDateIsStr (st3.read c2) then st3
      else st3.writeFrame c2
        ((st3.read c2).map (fun b => { b with date := b.date.normalize }))
    (compareAligned (st4.read c1) (st4.read c2), st4)

/-- C7: compute_metrics (calculate_metrics) on an empty series returns
the all-zero metrics record: every field (open, high, low, close,
volume, previous_close, fifty_day_avg, two_hundred_day_avg, year_high,
year_low) equals 0. -/
theorem C7_empty_metrics :
    (calculate_metrics []).openv = 0 ∧ (calculate_metrics []).high = 0 ∧
    (calculate_metrics []).low = 0 ∧ (calculate_metrics []).close = 0 ∧
    (calculate_metrics []).volume = 0 ∧ (calculate_metrics []).previous_close = 0 ∧
    (calculate_metrics []).fifty_day_avg = 0 ∧
    (calculate_metrics []).two_hundred_day_avg = 0 ∧
    (calculate_metrics []).year_high = 0 ∧ (calculate_metrics []).year_low = 0 := by
  decide

/-- C5 counterexample: on the concrete scenario of the specification
(closes 100,110 against 50,45) the correlation field is not -1.00 as
claimed; a two-bar alignment leaves single-element return series, for
which pandas Pearson correlation is NaN. -/
theorem C5_correlation_not_minus_one :
    (compare_assets dfScenA dfScenB).correlation ≠ FVal.q (-1) := by
  norm_num +decide [compare_assets, compareAligned, dfScenA, dfScenB, sbar, mergeOn, normalizeDates,
    headDateIsStr, pctChange, seriesCorr, seriesVar, seriesStd,
    stdRatioRounded, CorrV.rounded, ssq, demeanProd, meanQ, FVal.div, FVal.sub,
    FVal.mul, FVal.add, FVal.pyRound2, pyRound2, rheInt, rheSqrt, FVal.isNaN,
    FVal.isInf, FVal.toQ, List.filter_cons, List.filter_nil, List.flatMap_cons,
    List.flatMap_nil, beq_iff_eq]

/-- C5 amended: on the concrete scenario the correlation field is NaN
(single-element return sequences), while relative_performance is
22.22 as claimed (ratio0 = 2, ratioN = 110/45, ((ratioN/ratio0)-1)*100
rounded to 2 decimals). -/
theorem C5_scenario :
    (compare_assets dfScenA dfScenB).correlation = FVal.nan ∧
    (compare_assets dfScenA dfScenB).relative_performance = FVal.q (1111/50) := by
  norm_num +decide [compare_assets, compareAligned, dfScenA, dfScenB, sbar, mergeOn, normalizeDates,
    headDateIsStr, pctChange, seriesCorr, seriesVar, seriesStd,
    stdRatioRounded, CorrV.rounded, ssq, demeanProd, meanQ, FVal.div, FVal.sub,
    FVal.mul, FVal.add, FVal.pyRound2, pyRound2, rheInt, rheSqrt, FVal.isNaN,
    FVal.isInf, FVal.toQ, List.filter_cons, List.filter_nil, List.flatMap_cons,
    List.flatMap_nil, beq_iff_eq]

/-- Sum of squared deviations of an all-zero list is zero. -/
theorem ssq_of_all_zero {xs : List ℚ} (h : ∀ x ∈ xs, x = 0) : ssq xs = 0 := by
  have hs : xs.sum = 0 := List.sum_eq_zero h
  unfold ssq demeanProd meanQ
  rw [hs]
  simp only [zero_div]
  apply List.sum_eq_zero
  intro y hy
  rcases List.mem_map.mp hy with ⟨p, hp, rfl⟩
  rw [h p.1 (List.of_mem_zip hp).1, h p.2 (List.of_mem_zip hp).2]
  ring

/-- Correlation with an all-zero left return series is NaN: the left
variance vanishes, so the pandas correlation is undefined. -/
theorem seriesCorr_left_zero {xs ys : List FVal} (h : ∀ x ∈ xs, x = FVal.q 0) :
    seriesCorr xs ys = .nan := by
  have hz : ∀ a ∈ (((xs.zip ys).filter
      (fun p => !(p.1.isNaN || p.2.isNaN))).map (fun p => p.1.toQ)), a = 0 := by
    intro a ha
    rcases List.mem_map.mp ha with ⟨p, hp, rfl⟩
    have hx := (List.of_mem_zip (List.mem_filter.mp hp).1).1
    rw [h p.1 hx]
    rfl
  simp only [seriesCorr]
  split
  · rfl
  · split
    · rfl
    · rw [if_pos (by rw [ssq_of_all_zero hz, zero_mul])]

/-- C1 amended: for every pair of series whose aligned A-closes are all
equal to some nonzero constant (so the A return sequence is identically
zero, a zero-variance sequence), compare_assets does not raise but
returns correlation = NaN, not 0: pandas corr propagates NaN on a
zero-variance input and round keeps it. -/
theorem C1_zero_variance_nan (df1 df2 : List PriceBar) (c : ℚ) (hc : c ≠ 0)
    (h1 : df1 ≠ []) (h2 : df2 ≠ [])
    (hlen : 2 ≤ (mergeOn (normalizeDates df1) (normalizeDates df2)).length)
    (hconst : ∀ p ∈ mergeOn (normalizeDates df1) (normalizeDates df2),
      p.1.close = c) :
    (compare_assets df1 df2).correlation = FVal.nan := by
  have e1 : df1.isEmpty = false := by
    cases df1 with
    | nil => exact absurd rfl h1
    | cons a l => rfl
  have e2 : df2.isEmpty = false := by
    cases df2 with
    | nil => exact absurd rfl h2
    | cons a l => rfl
  have hcs : ∀ x ∈ (mergeOn (normalizeDates df1) (normalizeDates df2)).map
      (fun p => p.1.close), x = c := by
    intro x hx
    rcases List.mem_map.mp hx with ⟨p, hp, rfl⟩
    exact hconst p hp
  have hret : ∀ r ∈ pctChange ((mergeOn (normalizeDates df1) (normalizeDates df2)).map
      (fun p => p.1.close)), r = FVal.q 0 := by
    intro r hr
    rcases List.mem_map.mp hr with ⟨p, hp, rfl⟩
    have hm1 := (List.of_mem_zip hp).1
    have hm2 := List.mem_of_mem_tail (List.of_mem_zip hp).2
    rw [hcs p.1 hm1, hcs p.2 hm2]
    simp [FVal.div, FVal.sub, hc, div_self hc]
  have hnl : ¬ ((mergeOn (normalizeDates df1) (normalizeDates df2)).length < 2) :=
    not_lt.mpr hlen
  simp only [compare_assets, compareAligned, e1, e2, Bool.or_self, Bool.false_eq_true, if_false,
    if_neg hnl]
  rw [seriesCorr_left_zero hret]
  rfl

/-- C1 counterexample: a concrete pair whose A-side aligned returns are
identically zero (zero variance); the correlation field is NaN, which
is not the 0 the claim requires. -/
theorem C1_counterexample :
    (compare_assets dfConstA dfVarB).correlation = FVal.nan ∧
    FVal.nan ≠ FVal.q 0 := by
  norm_num +decide [compare_assets, compareAligned, dfConstA, dfVarB, sbar, mergeOn, normalizeDates,
    headDateIsStr, pctChange, seriesCorr, seriesVar, seriesStd,
    stdRatioRounded, CorrV.rounded, ssq, demeanProd, meanQ, FVal.div, FVal.sub,
    FVal.mul, FVal.add, FVal.pyRound2, pyRound2, rheInt, rheSqrt, FVal.isNaN,
    FVal.isInf, FVal.toQ, List.filter_cons, List.filter_nil, List.flatMap_cons,
    List.flatMap_nil, beq_iff_eq]

/-- C1 witness: the amended theorem applied at the concrete
zero-variance pair. -/
theorem C1_witness : (compare_assets dfConstA dfVarB).correlation = FVal.nan :=
  C1_zero_variance_nan dfConstA dfVarB 100 (by decide) (by decide) (by decide)
    (by decide) (by decide)

/-- C3 amended: numpy float division by zero does not raise, so the
except branch of the relative-performance computation is dead and a zero
denominator does not yield 0.  When the first closes of both aligned
series and the last close of series B are nonzero, relative_performance
is the claimed formula ((ratioN / ratio0) - 1) * 100 rounded to 2
decimals; when instead closeB[0] = 0 < closeA[0] (and closeB[last] is
nonzero), the first ratio is +infinity and the result is -100, not 0. -/
theorem C3_relative_performance (df1 df2 : List PriceBar)
    (cx0 cy0 cxl cyl : ℚ)
    (h1 : df1 ≠ []) (h2 : df2 ≠ [])
    (hlen : 2 ≤ (mergeOn (normalizeDates df1) (normalizeDates df2)).length)
    (hx0 : ((mergeOn (normalizeDates df1) (normalizeDates df2)).map
      (fun p => p.1.close)).headD 0 = cx0)
    (hy0 : ((mergeOn (normalizeDates df1) (normalizeDates df2)).map
      (fun p => p.2.close)).headD 0 = cy0)
    (hxl : ((mergeOn (normalizeDates df1) (normalizeDates df2)).map
      (fun p => p.1.close)).getLastD 0 = cxl)
    (hyl : ((mergeOn (normalizeDates df1) (normalizeDates df2)).map
      (fun p => p.2.close)).getLastD 0 = cyl) :
    (cx0 ≠ 0 → cy0 ≠ 0 → cyl ≠ 0 →
      (compare_assets df1 df2).relative_performance =
        FVal.q (pyRound2 ((cxl / cyl / (cx0 / cy0) - 1) * 100))) ∧
    (cy0 = 0 → 0 < cx0 → cyl ≠ 0 →
      (compare_assets df1 df2).relative_performance = FVal.q (-100)) := by
  have e1 : df1.isEmpty = false := by
    cases df1 with
    | nil => exact absurd rfl h1
    | cons a l => rfl
  have e2 : df2.isEmpty = false := by
    cases df2 with
    | nil => exact absurd rfl h2
    | cons a l => rfl
  have hnl : ¬ ((mergeOn (normalizeDates df1) (normalizeDates df2)).length < 2) :=
    not_lt.mpr hlen
  simp only [compare_assets, compareAligned, e1, e2, Bool.or_self, Bool.false_eq_true, if_false,
    if_neg hnl, hx0, hy0, hxl, hyl]
  constructor
  · intro hcx0 hcy0 hcyl
    have hr0 : cx0 / cy0 ≠ 0 := div_ne_zero hcx0 hcy0
    simp [FVal.div, FVal.sub, FVal.mul, FVal.pyRound2, hcy0, hcyl, hr0]
  · intro hcy0 hcx0p hcyl
    subst hcy0
    have hx : cx0 ≠ 0 := hcx0p.ne'
    simp only [FVal.div, FVal.sub, FVal.mul, FVal.pyRound2, if_pos rfl,
      if_neg hx, if_pos hcx0p, if_neg hcyl]
    norm_num [pyRound2, rheInt]

/-- C3 counterexample: with aligned closes A = (100, 110) and
B = (0, 45), the first close of series B is zero, yet
relative_performance is -100, not the 0 the claim requires (the first
ratio evaluates to +infinity under numpy division, and a finite value
divided by infinity is 0, giving (0 - 1) * 100). -/
theorem C3_counterexample :
    (compare_assets dfScenA dfZeroB).relative_performance = FVal.q (-100) ∧
    FVal.q (-100) ≠ FVal.q 0 := by
  norm_num +decide [compare_assets, compareAligned, dfScenA, dfZeroB, sbar, mergeOn, normalizeDates,
    headDateIsStr, pctChange, seriesCorr, seriesVar, seriesStd,
    stdRatioRounded, CorrV.rounded, ssq, demeanProd, meanQ, FVal.div, FVal.sub,
    FVal.mul, FVal.add, FVal.pyRound2, pyRound2, rheInt, rheSqrt, FVal.isNaN,
    FVal.isInf, FVal.toQ, List.filter_cons, List.filter_nil, List.flatMap_cons,
    List.flatMap_nil, beq_iff_eq]

/-- C3 witness: the formula branch of the amended theorem at the
concrete scenario pair (closes 100,110 against 50,45). -/
theorem C3_witness :
    (compare_assets dfScenA dfScenB).relative_performance =
      FVal.q (pyRound2 ((110 / 45 / ((100 : ℚ) / 50) - 1) * 100)) :=
  (C3_relative_performance dfScenA dfScenB 100 50 110 45 (by decide) (by decide)
    (by decide) (by decide) (by decide) (by decide) (by decide)).1
    (by norm_num) (by norm_num) (by norm_num)

/-- Same-representation inputs whose raw date columns share fewer than
two exact matches reach the zero sentinel of the comparison body. -/
theorem sentinel_of_short_raw_merge (df1 df2 : List PriceBar)
    (hlen : (mergeOn df1 df2).length < 2) :
    compare_stock_to_index df1 df2 = indexZero := by
  by_cases hA : (df1.isEmpty || df2.isEmpty) = true
  · simp only [compare_stock_to_index, if_pos hA]
  · simp only [compare_stock_to_index, if_neg hA, if_pos hlen]

/-- Representation-mismatched nonempty inputs make the un-normalised
merge of compare_stock_to_index raise ValueError. -/
theorem checked_error_of_mismatch (df1 df2 : List PriceBar)
    (h1 : df1 ≠ []) (h2 : df2 ≠ []) (hm : dateDtypeMismatch df1 df2 = true) :
    compare_stock_to_index_checked df1 df2 = .error valueErrorMsg := by
  have e1 : df1.isEmpty = false := by
    cases df1 with
    | nil => exact absurd rfl h1
    | cons a l => rfl
  have e2 : df2.isEmpty = false := by
    cases df2 with
    | nil => exact absurd rfl h2
    | cons a l => rfl
  simp only [compare_stock_to_index_checked, e1, e2, Bool.or_self,
    Bool.false_eq_true, if_false, hm, eq_self_iff_true, if_true]

/-- Same-representation inputs (or empty ones) with fewer than two
exact raw date matches give the zero sentinel without raising. -/
theorem checked_ok_of_short_merge (df1 df2 : List PriceBar)
    (hm : dateDtypeMismatch df1 df2 = false)
    (hlen : (mergeOn df1 df2).length < 2) :
    compare_stock_to_index_checked df1 df2 = .ok indexZero := by
  by_cases hA : (df1.isEmpty || df2.isEmpty) = true
  · simp only [compare_stock_to_index_checked, if_pos hA]
  · simp only [compare_stock_to_index_checked, if_neg hA, hm,
      Bool.false_eq_true, if_false]
    rw [sentinel_of_short_raw_merge df1 df2 hlen]

/-- C2 amended: compare_to_index (compare_stock_to_index) applies no
date normalisation: it inner-joins the raw date columns.  A
datetime-vs-string representation mismatch between two nonempty series
is therefore not aligned away as in compare_assets, and it does not
silently produce an empty join either: pd.merge raises ValueError on a
datetime64-vs-object date join.  Same-representation inputs whose raw
dates share fewer than two exact matches give the zero sentinel. -/
theorem C2_raw_join_behaviour (df1 df2 : List PriceBar) :
    (df1 ≠ [] → df2 ≠ [] → dateDtypeMismatch df1 df2 = true →
      compare_stock_to_index_checked df1 df2 = .error valueErrorMsg) ∧
    (dateDtypeMismatch df1 df2 = false → (mergeOn df1 df2).length < 2 →
      compare_stock_to_index_checked df1 df2 = .ok indexZero) :=
  ⟨checked_error_of_mismatch df1 df2, checked_ok_of_short_merge df1 df2⟩

/-- C2 counterexample: a datetime-dated series and a string-dated
series covering the same two calendar days.  compare_assets normalises
and aligns them (two aligned rows, a non-sentinel result), while
compare_stock_to_index merges the raw columns, whose dtype mismatch
makes pd.merge raise ValueError: the two functions do not apply the
same date alignment, and the mismatch is an error, not an empty
join. -/
theorem C2_counterexample :
    compare_stock_to_index_checked dfTdates dfSdates = .error valueErrorMsg ∧
    2 ≤ (mergeOn (normalizeDates dfTdates) (normalizeDates dfSdates)).length ∧
    compare_assets dfTdates dfSdates ≠ pairwiseZero := by
  refine ⟨rfl, by decide, ?_⟩
  norm_num +decide [compare_assets, compareAligned, dfTdates, dfSdates, sbar, tbar, mergeOn,
    normalizeDates, headDateIsStr, DateVal.normalize, pad4, pad2, pctChange,
    seriesCorr, seriesVar, seriesStd, stdRatioRounded, CorrV.rounded, ssq,
    demeanProd, meanQ, FVal.div, FVal.sub, FVal.mul, FVal.add, FVal.pyRound2,
    pyRound2, rheInt, rheSqrt, FVal.isNaN, FVal.isInf, FVal.toQ, pairwiseZero,
    List.filter_cons, List.filter_nil, List.flatMap_cons, List.flatMap_nil,
    beq_iff_eq]

/-- C2 witness: the error branch of the amended theorem applied at the
mismatched concrete pair. -/
theorem C2_witness :
    compare_stock_to_index_checked dfTdates dfSdates = .error valueErrorMsg :=
  (C2_raw_join_behaviour dfTdates dfSdates).1 (by decide) (by decide) (by decide)

/-- C6 amended: compare_assets returns its zero sentinel and never
raises when either input is empty or the aligned join has fewer than
two rows.  compare_to_index returns its zero sentinel when either
input is empty, and when both inputs share the date representation and
have fewer than two exact date matches; but for nonempty inputs of
mismatched date representations (datetime against string) its
un-normalised merge raises ValueError instead of returning the
sentinel. -/
theorem C6_sentinels_and_merge_error (df1 df2 : List PriceBar) :
    (df1 = [] ∨ df2 = [] ∨
        (mergeOn (normalizeDates df1) (normalizeDates df2)).length < 2 →
      compare_assets df1 df2 = pairwiseZero) ∧
    (df1 = [] ∨ df2 = [] ∨
        (dateDtypeMismatch df1 df2 = false ∧ (mergeOn df1 df2).length < 2) →
      compare_stock_to_index_checked df1 df2 = .ok indexZero) ∧
    (df1 ≠ [] → df2 ≠ [] → dateDtypeMismatch df1 df2 = true →
      compare_stock_to_index_checked df1 df2 = .error valueErrorMsg) := by
  refine ⟨?_, ?_, checked_error_of_mismatch df1 df2⟩
  · intro h
    cases df1 with
    | nil => rfl
    | cons a1 t1 =>
      cases df2 with
      | nil => rfl
      | cons a2 t2 =>
        have hlen : (mergeOn (normalizeDates (a1 :: t1))
            (normalizeDates (a2 :: t2))).length < 2 := by
          rcases h with h | h | h
          · exact absurd h (List.cons_ne_nil a1 t1)
          · exact absurd h (List.cons_ne_nil a2 t2)
          · exact h
        simp only [compare_assets, compareAligned, List.isEmpty_cons, Bool.or_self,
          Bool.false_eq_true, if_false, if_pos hlen]
  · intro h
    cases df1 with
    | nil => rfl
    | cons a1 t1 =>
      cases df2 with
      | nil =>
        simp only [compare_stock_to_index_checked, List.isEmpty_nil,
          Bool.or_true, if_true]
      | cons a2 t2 =>
        have hp : dateDtypeMismatch (a1 :: t1) (a2 :: t2) = false ∧
            (mergeOn (a1 :: t1) (a2 :: t2)).length < 2 := by
          rcases h with h | h | h
          · exact absurd h (List.cons_ne_nil a1 t1)
          · exact absurd h (List.cons_ne_nil a2 t2)
          · exact h
        exact checked_ok_of_short_merge (a1 :: t1) (a2 :: t2) hp.1 hp.2

/-- C6 counterexample: a nonempty datetime-dated series against a
nonempty string-dated series sharing no calendar date, a
non-overlapping pair squarely in the scope of the claim: the
un-normalised merge of compare_to_index raises ValueError, so the pair
does not produce the zero sentinel without exception. -/
theorem C6_counterexample :
    (mergeOn (normalizeDates dfTdates) (normalizeDates dfNoOverlap)).length = 0 ∧
    compare_stock_to_index_checked dfTdates dfNoOverlap = .error valueErrorMsg ∧
    (Except.error valueErrorMsg : Except String IndexOut) ≠ .ok indexZero := by
  refine ⟨by decide, rfl, ?_⟩
  intro h
  exact Except.noConfusion h

/-- C6 witness: the amended theorem applied at an empty left series, at
a same-representation non-overlapping pair, and at a
mismatched-representation pair. -/
theorem C6_witness :
    compare_assets [] dfScenB = pairwiseZero ∧
    compare_stock_to_index_checked dfScenA dfNoOverlap = .ok indexZero ∧
    compare_stock_to_index_checked dfTdates dfNoOverlap = .error valueErrorMsg :=
  ⟨(C6_sentinels_and_merge_error [] dfScenB).1 (Or.inl rfl),
   (C6_sentinels_and_merge_error dfScenA dfNoOverlap).2.1
     (Or.inr (Or.inr ⟨by decide, by decide⟩)),
   (C6_sentinels_and_merge_error dfTdates dfNoOverlap).2.2 (by decide) (by decide)
     (by decide)⟩

/-- C4: for every pair with at least 2 aligned rows, the beta field of
compare_to_index is the specification beta (fixed 1.5 when the mean
aligned index close exceeds 1,000,000, otherwise covariance over
variance of the aligned returns with 0 at zero variance) rounded to 2
decimals at the output boundary. -/
theorem C4_beta_guard (df1 df2 : List PriceBar)
    (h1 : df1 ≠ []) (h2 : df2 ≠ [])
    (hlen : 2 ≤ (mergeOn df1 df2).length) :
    (compare_stock_to_index df1 df2).beta = (betaSpec df1 df2).pyRound2 := by
  have e1 : df1.isEmpty = false := by
    cases df1 with
    | nil => exact absurd rfl h1
    | cons a l => rfl
  have e2 : df2.isEmpty = false := by
    cases df2 with
    | nil => exact absurd rfl h2
    | cons a l => rfl
  have hnl : ¬ ((mergeOn df1 df2).length < 2) := not_lt.mpr hlen
  simp only [compare_stock_to_index, betaSpec, e1, e2, Bool.or_self,
    Bool.false_eq_true, if_false, if_neg hnl, decide_eq_true_eq]
  split
  · rfl
  · cases hv : seriesVar (pctChange ((mergeOn df1 df2).map (fun p => p.2.close))) with
    | nan => rfl
    | inf => rfl
    | ninf => rfl
    | q v =>
      by_cases hz : v = 0
      · subst hz
        simp [FVal.neZero]
      · simp [FVal.neZero, hz]

/-- C4 witness: the beta theorem applied at the crypto-index scenario,
where the guard fires and the field is the rounded fixed 1.5. -/
theorem C4_witness :
    (compare_stock_to_index dfStock dfCryptoIdx).beta =
      (betaSpec dfStock dfCryptoIdx).pyRound2 :=
  C4_beta_guard dfStock dfCryptoIdx (by decide) (by decide) (by decide)

/-- C9: for every pair of nonempty inputs with at least 2 aligned rows,
the record returned by compare_to_index carries a fourth field, note,
equal to the string about scale normalisation exactly when the
crypto-index guard (mean aligned index close over 1,000,000) fires and
the empty string otherwise; the sentinel paths return no note. -/
theorem C9_note_field (df1 df2 : List PriceBar)
    (h1 : df1 ≠ []) (h2 : df2 ≠ [])
    (hlen : 2 ≤ (mergeOn df1 df2).length) :
    (compare_stock_to_index df1 df2).note =
      some (if 1000000 < meanQ ((mergeOn df1 df2).map (fun p => p.2.close))
            then "Values normalized for scale" else "") := by
  have e1 : df1.isEmpty = false := by
    cases df1 with
    | nil => exact absurd rfl h1
    | cons a l => rfl
  have e2 : df2.isEmpty = false := by
    cases df2 with
    | nil => exact absurd rfl h2
    | cons a l => rfl
  have hnl : ¬ ((mergeOn df1 df2).length < 2) := not_lt.mpr hlen
  simp only [compare_stock_to_index, e1, e2, Bool.or_self, Bool.false_eq_true,
    if_false, if_neg hnl, decide_eq_true_eq]

/-- C9 witness: at the crypto-index scenario the note field holds the
scale-normalisation string. -/
theorem C9_witness :
    (compare_stock_to_index dfStock dfCryptoIdx).note =
      some "Values normalized for scale" := by
  rw [C9_note_field dfStock dfCryptoIdx (by decide) (by decide) (by decide)]
  norm_num +decide [dfStock, dfCryptoIdx, sbar, mergeOn, meanQ,
    List.filter_cons, List.filter_nil, List.flatMap_cons, List.flatMap_nil,
    beq_iff_eq]

/-- Read of a freshly allocated cell returns the allocated frame. -/
theorem store_read_alloc_fresh (l : List (List PriceBar)) (df : List PriceBar) :
    (l ++ [df]).getD l.length [] = df := by
  rw [List.getD_eq_getElem?_getD,
    List.getElem?_append_right (Nat.le_refl l.length)]
  simp

/-- Read below the old length is unchanged by an append. -/
theorem store_read_append_lt {l l2 : List (List PriceBar)} {i : Nat}
    (h : i < l.length) : (l ++ l2).getD i [] = l.getD i [] := by
  rw [List.getD_eq_getElem?_getD, List.getElem?_append_left h,
    List.getD_eq_getElem?_getD]

/-- Read at a different address is unchanged by a write. -/
theorem store_read_set_ne {l : List (List PriceBar)} {i j : Nat} (h : i ≠ j)
    (df : List PriceBar) : (l.set i df).getD j [] = l.getD j [] := by
  rw [List.getD_eq_getElem?_getD, List.getElem?_set_ne h,
    List.getD_eq_getElem?_getD]

/-- Read at a written address returns the written frame when the
address is in range. -/
theorem store_read_set_self {l : List (List PriceBar)} {i : Nat}
    (h : i < l.length) (df : List PriceBar) : (l.set i df).getD i [] = df := by
  rw [List.getD_eq_getElem?_getD, List.getElem?_set_self h]
  rfl

/-- C10: compare_assets never mutates its input frames.  In the
store-level embedding the date normalisation writes hit only the two
freshly allocated copies, so after the call both argument addresses
still hold their original frames, and the value computed from the
copies is exactly the functional embedding of compare_assets on the
original frames. -/
theorem C10_no_input_mutation (st : Store) (a1 a2 : Nat) :
    (compareAssetsProg st a1 a2).2.read a1 = st.read a1 ∧
    (compareAssetsProg st a1 a2).2.read a2 = st.read a2 ∧
    (compareAssetsProg st a1 a2).1 = compare_assets (st.read a1) (st.read a2) := by
  by_cases he : ((st.read a1).isEmpty || (st.read a2).isEmpty) = true
  · refine ⟨?_, ?_, ?_⟩ <;>
      simp only [compareAssetsProg, compare_assets, if_pos he]
  · have h1 : a1 < st.frames.length := by
      by_contra hge
      have hnil : st.read a1 = [] :=
        List.getD_eq_default _ _ (Nat.le_of_not_lt hge)
      rw [Bool.or_eq_true] at he
      exact he (Or.inl (by rw [hnil]; rfl))
    have h2 : a2 < st.frames.length := by
      by_contra hge
      have hnil : st.read a2 = [] :=
        List.getD_eq_default _ _ (Nat.le_of_not_lt hge)
      rw [Bool.or_eq_true] at he
      exact he (Or.inr (by rw [hnil]; rfl))
    have he2 : ((st.frames.getD a1 []).isEmpty ||
        (st.frames.getD a2 []).isEmpty) = false := by
      rw [Bool.eq_false_iff]
      simpa only [Store.read] using he
    simp only [compareAssetsProg, compare_assets, Store.alloc, Store.read,
      Store.writeFrame, he2, Bool.false_eq_true, if_false]
    rw [show st.frames = st.frames from rfl] at h1
    have hj1 : a1 < (st.frames ++ [st.frames.getD a1 []]).length := by
      simp only [List.length_append, List.length_singleton]
      omega
    have hj2 : a2 < (st.frames ++ [st.frames.getD a1 []]).length := by
      simp only [List.length_append, List.length_singleton]
      omega
    have hcc : st.frames.length ≠ (st.frames ++ [st.frames.getD a1 []]).length := by
      simp only [List.length_append, List.length_singleton]
      omega
    have hLc1 : st.frames.length <
        ((st.frames ++ [st.frames.getD a1 []]) ++ [st.frames.getD a2 []]).length := by
      simp only [List.length_append, List.length_singleton]
      omega
    have hLc2 : (st.frames ++ [st.frames.getD a1 []]).length <
        ((st.frames ++ [st.frames.getD a1 []]) ++ [st.frames.getD a2 []]).length := by
      simp only [List.length_append, List.length_singleton]
      omega
    have eC1 : ((st.frames ++ [st.frames.getD a1 []]) ++
        [st.frames.getD a2 []]).getD st.frames.length [] = st.frames.getD a1 [] := by
      rw [store_read_append_lt (by
        simp only [List.length_append, List.length_singleton]
        omega)]
      exact store_read_alloc_fresh _ _
    have eC2 : ((st.frames ++ [st.frames.getD a1 []]) ++
        [st.frames.getD a2 []]).getD (st.frames ++ [st.frames.getD a1 []]).length []
        = st.frames.getD a2 [] := store_read_alloc_fresh _ _
    have eA1 : ((st.frames ++ [st.frames.getD a1 []]) ++
        [st.frames.getD a2 []]).getD a1 [] = st.frames.getD a1 [] := by
      rw [store_read_append_lt hj1, store_read_append_lt h1]
    have eA2 : ((st.frames ++ [st.frames.getD a1 []]) ++
        [st.frames.getD a2 []]).getD a2 [] = st.frames.getD a2 [] := by
      rw [store_read_append_lt hj2, store_read_append_lt h2]
    rw [eC1]
    by_cases hs1 : headDateIsStr (st.frames.getD a1 []) = true
    · rw [if_pos hs1, eC2]
      have hn1 : normalizeDates (st.frames.getD a1 []) = st.frames.getD a1 [] := by
        unfold normalizeDates
        rw [if_pos hs1]
      by_cases hs2 : headDateIsStr (st.frames.getD a2 []) = true
      · rw [if_pos hs2]
        have hn2 : normalizeDates (st.frames.getD a2 []) = st.frames.getD a2 [] := by
          unfold normalizeDates
          rw [if_pos hs2]
        exact ⟨eA1, eA2, by rw [eC1, eC2, hn1, hn2]⟩
      · rw [if_neg hs2]
        have hn2 : normalizeDates (st.frames.getD a2 []) =
            (st.frames.getD a2 []).map
              (fun b => { b with date := b.date.normalize }) := by
          unfold normalizeDates
          rw [if_neg hs2]
        refine ⟨?_, ?_, ?_⟩
        · rw [store_read_set_ne (Nat.ne_of_lt hj1).symm, eA1]
        · rw [store_read_set_ne (Nat.ne_of_lt hj2).symm, eA2]
        · rw [store_read_set_ne (Ne.symm hcc), eC1,
            store_read_set_self hLc2, hn1, hn2]
    · rw [if_neg hs1]
      have hn1 : normalizeDates (st.frames.getD a1 []) =
          (st.frames.getD a1 []).map
            (fun b => { b with date := b.date.normalize }) := by
        unfold normalizeDates
        rw [if_neg hs1]
      rw [store_read_set_ne hcc, eC2]
      by_cases hs2 : headDateIsStr (st.frames.getD a2 []) = true
      · rw [if_pos hs2]
        have hn2 : normalizeDates (st.frames.getD a2 []) = st.frames.getD a2 [] := by
          unfold normalizeDates
          rw [if_pos hs2]
        refine ⟨?_, ?_, ?_⟩
        · rw [store_read_set_ne (Nat.ne_of_lt h1).symm, eA1]
        · rw [store_read_set_ne (Nat.ne_of_lt h2).symm, eA2]
        · rw [store_read_set_ne hcc, eC2, store_read_set_self hLc1, hn1, hn2]
      · rw [if_neg hs2]
        have hn2 : normalizeDates (st.frames.getD a2 []) =
            (st.frames.getD a2 []).map
              (fun b => { b with date := b.date.normalize }) := by
          unfold normalizeDates
          rw [if_neg hs2]
        refine ⟨?_, ?_, ?_⟩
        · rw [store_read_set_ne (Nat.ne_of_lt hj1).symm,
            store_read_set_ne (Nat.ne_of_lt h1).symm, eA1]
        · rw [store_read_set_ne (Nat.ne_of_lt hj2).symm,
            store_read_set_ne (Nat.ne_of_lt h2).symm, eA2]
        · rw [store_read_set_ne (Ne.symm hcc), store_read_set_self hLc1,
            store_read_set_self (by
              rw [List.length_set]
              exact hLc2), hn1, hn2]

/-- Filter by the date of a member of a duplicate-free frame returns
exactly that member. -/
theorem filter_date_of_nodup (b : List PriceBar) :
    (b.map PriceBar.date).Nodup → ∀ rb ∈ b,
      b.filter (fun x => x.date == rb.date) = [rb] := by
  induction b with
  | nil =>
    intro _ rb hrb
    cases hrb
  | cons r t ih =>
    intro hnd rb hrb
    rw [List.map_cons, List.nodup_cons] at hnd
    rcases List.mem_cons.mp hrb with hr | ht
    · subst hr
      rw [List.filter_cons, if_pos (by simp)]
      have ht0 : t.filter (fun x => x.date == rb.date) = [] := by
        rw [List.filter_eq_nil_iff]
        intro x hx hbeq
        rw [beq_iff_eq] at hbeq
        exact hnd.1 (by
          rw [← hbeq]
          exact List.mem_map_of_mem PriceBar.date hx)
      rw [ht0]
    · have hne : ¬ (r.date == rb.date) = true := by
        rw [beq_iff_eq]
        intro hEq
        exact hnd.1 (by
          rw [hEq]
          exact List.mem_map_of_mem PriceBar.date ht)
      rw [List.filter_cons, if_neg hne]
      exact ih hnd.2 rb ht

/-- Over a duplicate-free right frame, an inner merge keeps exactly the
left rows whose date occurs on the right, each paired with the unique
matching right row. -/
theorem mergeOn_eq (a b : List PriceBar) (hb : (b.map PriceBar.date).Nodup) :
    mergeOn a b
      = (a.filter (fun ra => decide (ra.date ∈ b.map PriceBar.date))).map
          (fun ra => (ra, lookupBar b ra.date)) := by
  induction a with
  | nil => rfl
  | cons r t ih =>
    by_cases hc : r.date ∈ b.map PriceBar.date
    · obtain ⟨rb, hrb, hdate⟩ := List.mem_map.mp hc
      have hfilter : b.filter (fun x => x.date == r.date) = [rb] := by
        rw [← hdate]
        exact filter_date_of_nodup b hb rb hrb
      have hlook : lookupBar b r.date = rb := by
        rw [lookupBar, hfilter]
        rfl
      simp only [mergeOn, List.flatMap_cons, List.filter_cons,
        decide_eq_true hc, eq_self_iff_true, if_true, List.map_cons,
        List.map_nil, List.nil_append, List.cons_append, hfilter]
      rw [← mergeOn, ih, hlook]
    · have hfilter : b.filter (fun x => x.date == r.date) = [] := by
        rw [List.filter_eq_nil_iff]
        intro x hx hbeq
        rw [beq_iff_eq] at hbeq
        exact hc (by
          rw [← hbeq]
          exact List.mem_map_of_mem PriceBar.date hx)
      simp only [mergeOn, List.flatMap_cons, List.filter_cons, hfilter,
        decide_eq_false hc, Bool.false_eq_true, if_false, List.map_nil,
        List.nil_append]
      rw [← mergeOn, ih]

/-- Over duplicate-free date columns whose common dates occur in the
same relative order on both sides, swapping the frames of an inner
merge swaps the row pairs. -/
theorem mergeOn_swap (a b : List PriceBar)
    (ha : (a.map PriceBar.date).Nodup) (hb : (b.map PriceBar.date).Nodup)
    (hcomm : (a.map PriceBar.date).filter
        (fun d => decide (d ∈ b.map PriceBar.date))
      = (b.map PriceBar.date).filter
        (fun d => decide (d ∈ a.map PriceBar.date))) :
    mergeOn b a = (mergeOn a b).map Prod.swap := by
  rw [mergeOn_eq a b hb, mergeOn_eq b a ha, List.map_map]
  have hA : ∀ ra ∈ a.filter (fun ra => decide (ra.date ∈ b.map PriceBar.date)),
      (Prod.swap ∘ fun ra => (ra, lookupBar b ra.date)) ra
        = ((fun d => (lookupBar b d, lookupBar a d)) ∘ PriceBar.date) ra := by
    intro ra hra
    have hmem : ra ∈ a := (List.mem_filter.mp hra).1
    have hlook : lookupBar a ra.date = ra := by
      rw [lookupBar, filter_date_of_nodup a ha ra hmem]
      rfl
    simp only [Function.comp_apply, Prod.swap_prod_mk]
    rw [hlook]
  have hB : ∀ rb ∈ b.filter (fun rb => decide (rb.date ∈ a.map PriceBar.date)),
      (fun rb => (rb, lookupBar a rb.date)) rb
        = ((fun d => (lookupBar b d, lookupBar a d)) ∘ PriceBar.date) rb := by
    intro rb hrb
    have hmem : rb ∈ b := (List.mem_filter.mp hrb).1
    have hlook : lookupBar b rb.date = rb := by
      rw [lookupBar, filter_date_of_nodup b hb rb hmem]
      rfl
    simp only [Function.comp_apply]
    rw [hlook]
  rw [List.map_congr_left hB, List.map_congr_left hA]
  rw [show (fun rb : PriceBar => decide (rb.date ∈ a.map PriceBar.date))
      = ((fun d => decide (d ∈ a.map PriceBar.date)) ∘ PriceBar.date) from rfl]
  rw [show (fun ra : PriceBar => decide (ra.date ∈ b.map PriceBar.date))
      = ((fun d => decide (d ∈ b.map PriceBar.date)) ∘ PriceBar.date) from rfl]
  rw [← List.map_map, ← List.map_map, ← List.filter_map, ← List.filter_map,
    hcomm]


/-- Symmetry of the demeaned cross sum. -/
theorem demeanProd_comm (xs ys : List ℚ) : demeanProd xs ys = demeanProd ys xs := by
  unfold demeanProd
  rw [← List.zip_swap xs ys, List.map_map]
  apply congrArg List.sum
  apply List.map_congr_left
  intro p hp
  simp only [Function.comp_apply, Prod.fst_swap, Prod.snd_swap]
  ring

/-- Symmetry of the pandas Pearson correlation in its two series. -/
theorem seriesCorr_comm (xs ys : List FVal) : seriesCorr xs ys = seriesCorr ys xs := by
  simp only [seriesCorr]
  rw [← List.zip_swap xs ys, List.filter_map]
  have hpred : ((fun p : FVal × FVal => !(p.1.isNaN || p.2.isNaN)) ∘ Prod.swap)
      = (fun p : FVal × FVal => !(p.1.isNaN || p.2.isNaN)) := by
    funext p
    simp [Bool.or_comm, Bool.and_comm]
  rw [hpred, List.any_map, List.length_map, List.map_map, List.map_map]
  have hany : ((fun p : FVal × FVal => p.1.isInf || p.2.isInf) ∘ Prod.swap)
      = (fun p : FVal × FVal => p.1.isInf || p.2.isInf) := by
    funext p
    simp [Bool.or_comm]
  have hq1 : ((fun p : FVal × FVal => p.1.toQ) ∘ Prod.swap)
      = (fun p : FVal × FVal => p.2.toQ) := rfl
  have hq2 : ((fun p : FVal × FVal => p.2.toQ) ∘ Prod.swap)
      = (fun p : FVal × FVal => p.1.toQ) := rfl
  rw [hany, hq1, hq2]
  generalize (xs.zip ys).filter (fun p => !(p.1.isNaN || p.2.isNaN)) = ps
  rw [mul_comm (ssq (ps.map fun p => p.1.toQ)) (ssq (ps.map fun p => p.2.toQ)),
    demeanProd_comm (ps.map fun p => p.1.toQ) (ps.map fun p => p.2.toQ)]

/-- C8: the correlation field of compare_assets is symmetric under
swapping the two series, for inputs satisfying the data-model invariant
(duplicate-free date columns, with the common dates in the same
relative order on both sides, as holds for series sorted ascending by
date), stated over the normalised frames the function actually
merges. -/
theorem C8_correlation_symmetric (df1 df2 : List PriceBar)
    (h1 : ((normalizeDates df1).map PriceBar.date).Nodup)
    (h2 : ((normalizeDates df2).map PriceBar.date).Nodup)
    (hcomm : ((normalizeDates df1).map PriceBar.date).filter
        (fun d => decide (d ∈ (normalizeDates df2).map PriceBar.date))
      = ((normalizeDates df2).map PriceBar.date).filter
        (fun d => decide (d ∈ (normalizeDates df1).map PriceBar.date))) :
    (compare_assets df1 df2).correlation = (compare_assets df2 df1).correlation := by
  by_cases he : (df1.isEmpty || df2.isEmpty) = true
  · have he2 : (df2.isEmpty || df1.isEmpty) = true := by
      rw [Bool.or_comm]
      exact he
    simp only [compare_assets, if_pos he, if_pos he2]
  · have he2 : ¬ (df2.isEmpty || df1.isEmpty) = true := by
      rw [Bool.or_comm]
      exact he
    simp only [compare_assets, if_neg he, if_neg he2]
    have hswap : mergeOn (normalizeDates df2) (normalizeDates df1)
        = (mergeOn (normalizeDates df1) (normalizeDates df2)).map Prod.swap :=
      mergeOn_swap (normalizeDates df1) (normalizeDates df2) h1 h2 hcomm
    simp only [compareAligned, hswap, List.length_map, List.map_map]
    by_cases hlen : (mergeOn (normalizeDates df1) (normalizeDates df2)).length < 2
    · rw [if_pos hlen, if_pos hlen]
    · rw [if_neg hlen, if_neg hlen]
      have hc1 : ((fun p : PriceBar × PriceBar => p.1.close) ∘ Prod.swap)
          = (fun p : PriceBar × PriceBar => p.2.close) := rfl
      have hc2 : ((fun p : PriceBar × PriceBar => p.2.close) ∘ Prod.swap)
          = (fun p : PriceBar × PriceBar => p.1.close) := rfl
      rw [hc1, hc2, seriesCorr_comm]

/-- C8 witness: symmetry at the concrete scenario pair, whose date
columns are duplicate-free and identically ordered. -/
theorem C8_witness :
    (compare_assets dfScenA dfScenB).correlation
      = (compare_assets dfScenB dfScenA).correlation :=
  C8_correlation_symmetric dfScenA dfScenB (by decide) (by decide) (by decide)


end MarketAnalysis
